import Mathlib

/-!
Shallow embedding of the OpenCorr correlation core: the ICGN estimators of
`src/oc_icgn.cpp` (ICGN2D1, ICGN2D2, ICGN3D1) and the FFT-CC estimator of
`oc_fftcc.cpp` (FFTCC2D, including the speckle-size diagnostic).

Modelling conventions:
* C++ `float` arithmetic is modelled over `ℚ`; where a quantity can be NaN
  and the code tests for it (`std::isnan`), the value is modelled by `F32`,
  a rational together with an explicit NaN constructor.
* The math-library square root is an abstract parameter `fsqrt : ℚ → ℚ`.
* External collaborators that are not part of the given sources (FFTW
  transforms, `Subset2D`/`Subset3D`, the B-spline interpolators, Eigen's
  matrix inverse) are abstracted into explicitly named parameters; every
  control-flow decision and arithmetic formula that appears in the given
  sources is translated literally.
* A C++ `throw` that leaves a function before it writes anything is modelled
  by returning the unchanged state together with `some msg`.
-/

/-- A C++ `float` value as read from a POI field: either NaN or a rational. -/
inductive F32 where
  | nan : F32
  | val : ℚ → F32
deriving DecidableEq

/-- `std::isnan` on a modelled float. -/
def F32.isnan : F32 → Bool
  | .nan => true
  | .val _ => false

/-- Numeric value of a modelled float.  The sources only read values this way
under guards (or in contexts) where the claims do not depend on NaN
propagation; NaN is mapped to an arbitrary rational (0). -/
def F32.q : F32 → ℚ
  | .nan => 0
  | .val x => x

/-- The 12-component deformation vector stored in a `POI2D`
(`u, ux, uy, uxx, uxy, uyy, v, vx, vy, vxx, vxy, vyy`). -/
structure DeformationVector2D where
  u : F32
  ux : F32
  uy : F32
  uxx : F32
  uxy : F32
  uyy : F32
  v : F32
  vx : F32
  vy : F32
  vxx : F32
  vxy : F32
  vyy : F32
deriving DecidableEq

/-- The diagnostic record of a `POI2D`
(`u0, v0, zncc, iteration, convergence`). -/
structure Result2D where
  u0 : ℚ
  v0 : ℚ
  zncc : ℚ
  iteration : ℚ
  convergence : ℚ
deriving DecidableEq

/-- A 2D point of interest: integer-valued centre stored as floats, plus the
mutable deformation vector and result record. -/
structure POI2D where
  x : ℚ
  y : ℚ
  deformation : DeformationVector2D
  result : Result2D
deriving DecidableEq

/-- The 12-component deformation vector stored in a `POI3D`. -/
structure DeformationVector3D where
  u : F32
  ux : F32
  uy : F32
  uz : F32
  v : F32
  vx : F32
  vy : F32
  vz : F32
  w : F32
  wx : F32
  wy : F32
  wz : F32
deriving DecidableEq

/-- The diagnostic record of a `POI3D`. -/
structure Result3D where
  u0 : ℚ
  v0 : ℚ
  w0 : ℚ
  zncc : ℚ
  iteration : ℚ
  convergence : ℚ
deriving DecidableEq

/-- A 3D point of interest. -/
structure POI3D where
  x : ℚ
  y : ℚ
  z : ℚ
  deformation : DeformationVector3D
  result : Result3D
deriving DecidableEq

/-- A 2D image view: `width`, `height`, and the dense value accessor
`eg_mat (row, column)`. -/
structure Image2D where
  width : ℤ
  height : ℤ
  eg_mat : ℤ → ℤ → ℚ

/-- A 3D volume view; only the dimensions are consulted by the code under
analysis (the voxel data feeds collaborators that are abstracted). -/
structure Image3D where
  dim_x : ℤ
  dim_y : ℤ
  dim_z : ℤ

/-- The message of the exception thrown by every `getInstance` overload. -/
def threadOverLimit : String := "CPU thread ID over limit"

/-- C-style cast of a float to `int`: truncation toward zero
(`Int.div` is T-division, matching C). -/
def truncQ (q : ℚ) : ℤ := Int.tdiv q.num q.den

/-- Running sum `f 0 + f 1 + ⋯ + f (n-1)`, the accumulation pattern of the
source's `for` loops. -/
def sumTo (f : ℕ → ℚ) : ℕ → ℚ
  | 0 => 0
  | n + 1 => sumTo f n + f n

/-! ### ICGN2D1 (oc_icgn.cpp, first-order 2D) -/

/-- Configuration state of an `ICGN2D1` estimator as set by its constructor.
The scratch instances hold only buffers re-derived per POI, so the pool is
modelled by a list of instance identifiers. -/
structure ICGN2D1 where
  subset_radius_x : ℕ
  subset_radius_y : ℕ
  conv_criterion : ℚ
  stop_condition : ℚ
  thread_number : ℕ
  instance_pool : List ℕ

/-- `ICGN2D1::ICGN2D1`: stores the parameters and pushes `thread_number`
freshly allocated scratch instances into the pool. -/
def ICGN2D1.create (subset_radius_x subset_radius_y : ℕ)
    (conv_criterion stop_condition : ℚ) (thread_number : ℕ) : ICGN2D1 :=
  { subset_radius_x := subset_radius_x
    subset_radius_y := subset_radius_y
    conv_criterion := conv_criterion
    stop_condition := stop_condition
    thread_number := thread_number
    instance_pool := List.range thread_number }

/-- `ICGN2D1::getInstance`: throws when `tid` is at least the pool size,
otherwise returns the `tid`-th pre-allocated instance. -/
def ICGN2D1.getInstance (s : ICGN2D1) (tid : ℕ) : Except String ℕ :=
  if s.instance_pool.length ≤ tid then .error threadOverLimit
  else .ok (s.instance_pool.getD tid 0)

/-- The pre-POI validation test of `ICGN2D1::compute` (oc_icgn.cpp lines
117-119), translated literally: subset bound checks against the reference
image, then `std::isnan` on `deformation.u` and `deformation.v`. -/
def ICGN2D1.rejectCond (s : ICGN2D1) (ref_img : Image2D) (poi : POI2D) : Bool :=
  decide (poi.y - (s.subset_radius_y : ℚ) < 0) ||
  decide (poi.x - (s.subset_radius_x : ℚ) < 0) ||
  decide (poi.y + (s.subset_radius_y : ℚ) > (ref_img.height : ℚ) - 1) ||
  decide (poi.x + (s.subset_radius_x : ℚ) > (ref_img.width : ℚ) - 1) ||
  poi.deformation.u.isnan || poi.deformation.v.isnan

/-- Parameter vector of the source's `Deformation2D1`
(the warp-matrix form lives in `oc_deformation`, outside the given sources). -/
structure Deformation2D1 where
  u : ℚ
  ux : ℚ
  uy : ℚ
  v : ℚ
  vx : ℚ
  vy : ℚ
deriving DecidableEq

/-- The convergence norm of `ICGN2D1::compute` (lines 223-234):
`dp_norm_max = sqrt(u² + ux²·rx² + uy²·ry² + v² + vx²·rx² + vy²·ry²)`
on the components of `p_increment`. -/
def dpNormMax2D1 (fsqrt : ℚ → ℚ) (rx ry : ℕ) (dp : Deformation2D1) : ℚ :=
  let rx2 : ℚ := (rx : ℚ) * (rx : ℚ)
  let ry2 : ℚ := (ry : ℚ) * (ry : ℚ)
  fsqrt (dp.u * dp.u + dp.ux * dp.ux * rx2 + dp.uy * dp.uy * ry2 +
         dp.v * dp.v + dp.vx * dp.vx * rx2 + dp.vy * dp.vy * ry2)

/-- The IC-GN do-while loop (lines 174-235) on its iteration counter: the
body runs (`iteration++`, producing the increment norm `dpN iteration`),
then the loop continues while `iteration < stop_condition` and
`dp_norm_max ≥ conv_criterion`.  `fuel` is a structural bound on the
remaining iterations; `⌈stop⌉₊` fuel is proven sufficient below, so the
fuel-exhausted base case is never taken on the calls the code performs. -/
def icgnLoopGo (dpN : ℕ → ℚ) (stop conv : ℚ) : ℕ → ℕ → ℕ
  | 0, iter => iter + 1
  | fuel + 1, iter =>
    if ((iter + 1 : ℕ) : ℚ) < stop ∧ conv ≤ dpN (iter + 1)
    then icgnLoopGo dpN stop conv fuel (iter + 1)
    else iter + 1

/-- Number of iterations the IC-GN loop performs, starting from
`iteration = 0`. -/
def icgnIterCount (dpN : ℕ → ℚ) (stop conv : ℚ) : ℕ :=
  icgnLoopGo dpN stop conv ⌈stop⌉₊ 0

/-- Modelled from the spec: the per-iteration quantities of the ICGN2D1 loop
that are produced by collaborators absent from the given sources —
`Subset2D::fill`/`zeroMeanNorm`, the bicubic B-spline interpolation of the
warped target subset, Eigen's Hessian inverse and the warp-matrix
composition.  `dp k` is the parameter increment computed in iteration `k`,
`p k` the current parameter vector after `k` iterations, `znssd k` the
ZNSSD evaluated in iteration `k`.  They are kept abstract: the claims under
analysis do not depend on their values. -/
structure Iter2D1 where
  dp : ℕ → Deformation2D1
  p : ℕ → Deformation2D1
  znssd : ℕ → ℚ

/-- The increment-norm sequence fed to the loop exit test by
`ICGN2D1::compute`. -/
def icgn2D1DpNorm (s : ICGN2D1) (fsqrt : ℚ → ℚ) (env : Iter2D1) (k : ℕ) : ℚ :=
  dpNormMax2D1 fsqrt s.subset_radius_x s.subset_radius_y (env.dp k)

/-- The iteration count recorded by `ICGN2D1::compute` for a POI that passed
validation. -/
def icgn2D1Iterations (s : ICGN2D1) (fsqrt : ℚ → ℚ) (env : Iter2D1) : ℕ :=
  icgnIterCount (icgn2D1DpNorm s fsqrt env) s.stop_condition s.conv_criterion

/-- The non-rejecting branch of `ICGN2D1::compute` (lines 123-251): run the
IC-GN iteration, then store the final first-order deformation into the POI
and record `u0`, `v0`, `zncc = 0.5·(2 − znssd)`, the iteration count and the
final increment norm. -/
def ICGN2D1.body (s : ICGN2D1) (fsqrt : ℚ → ℚ) (env : Iter2D1) (poi : POI2D) :
    POI2D :=
  let n := icgn2D1Iterations s fsqrt env
  let pc := env.p n
  { poi with
    deformation := { poi.deformation with
      u := F32.val pc.u, ux := F32.val pc.ux, uy := F32.val pc.uy,
      v := F32.val pc.v, vx := F32.val pc.vx, vy := F32.val pc.vy }
    result := { poi.result with
      u0 := poi.deformation.u.q
      v0 := poi.deformation.v.q
      zncc := (1/2 : ℚ) * (2 - env.znssd n)
      iteration := (n : ℚ)
      convergence := icgn2D1DpNorm s fsqrt env n } }

/-- `ICGN2D1::compute(POI2D*)`: select the scratch instance for the thread
(a throw propagates before anything is written), then either reject the POI
(`result.zncc = -1`, nothing else touched) or run the iteration body. -/
def ICGN2D1.compute (s : ICGN2D1) (ref_img : Image2D) (fsqrt : ℚ → ℚ)
    (env : Iter2D1) (tid : ℕ) (poi : POI2D) : POI2D × Option String :=
  match s.getInstance tid with
  | .error e => (poi, some e)
  | .ok _ =>
    if s.rejectCond ref_img poi then
      ({ poi with result := { poi.result with zncc := -1 } }, none)
    else
      (s.body fsqrt env poi, none)

/-! ### ICGN2D2 (oc_icgn.cpp, second-order 2D) -/

/-- Configuration state of an `ICGN2D2` estimator. -/
structure ICGN2D2 where
  subset_radius_x : ℕ
  subset_radius_y : ℕ
  conv_criterion : ℚ
  stop_condition : ℚ
  thread_number : ℕ
  instance_pool : List ℕ

/-- The five-argument `ICGN2D2::ICGN2D2` constructor. -/
def ICGN2D2.create (subset_radius_x subset_radius_y : ℕ)
    (conv_criterion stop_condition : ℚ) (thread_number : ℕ) : ICGN2D2 :=
  { subset_radius_x := subset_radius_x
    subset_radius_y := subset_radius_y
    conv_criterion := conv_criterion
    stop_condition := stop_condition
    thread_number := thread_number
    instance_pool := List.range thread_number }

/-- `ICGN2D2::getInstance`. -/
def ICGN2D2.getInstance (s : ICGN2D2) (tid : ℕ) : Except String ℕ :=
  if s.instance_pool.length ≤ tid then .error threadOverLimit
  else .ok (s.instance_pool.getD tid 0)

/-- The pre-POI validation test of `ICGN2D2::compute` (lines 365-367),
identical to the first-order one: bounds, then NaN on `u` and `v` only. -/
def ICGN2D2.rejectCond (s : ICGN2D2) (ref_img : Image2D) (poi : POI2D) : Bool :=
  decide (poi.y - (s.subset_radius_y : ℚ) < 0) ||
  decide (poi.x - (s.subset_radius_x : ℚ) < 0) ||
  decide (poi.y + (s.subset_radius_y : ℚ) > (ref_img.height : ℚ) - 1) ||
  decide (poi.x + (s.subset_radius_x : ℚ) > (ref_img.width : ℚ) - 1) ||
  poi.deformation.u.isnan || poi.deformation.v.isnan

/-- Parameter vector of the source's `Deformation2D2`. -/
structure Deformation2D2 where
  u : ℚ
  ux : ℚ
  uy : ℚ
  uxx : ℚ
  uxy : ℚ
  uyy : ℚ
  v : ℚ
  vx : ℚ
  vy : ℚ
  vxx : ℚ
  vxy : ℚ
  vyy : ℚ
deriving DecidableEq

/-- The convergence norm of `ICGN2D2::compute` (lines 480-500): the
first-order terms plus
`uxx²·rx⁴/4 + uyy²·ry⁴/4 + uxy²·rx²·ry²` (and the same for `v`). -/
def dpNormMax2D2 (fsqrt : ℚ → ℚ) (rx ry : ℕ) (dp : Deformation2D2) : ℚ :=
  let rx2 : ℚ := (rx : ℚ) * (rx : ℚ)
  let ry2 : ℚ := (ry : ℚ) * (ry : ℚ)
  let rxy : ℚ := rx2 * ry2
  fsqrt (dp.u * dp.u + dp.ux * dp.ux * rx2 + dp.uy * dp.uy * ry2 +
         dp.uxx * dp.uxx * rx2 * rx2 / 4 + dp.uyy * dp.uyy * ry2 * ry2 / 4 +
         dp.uxy * dp.uxy * rxy +
         dp.v * dp.v + dp.vx * dp.vx * rx2 + dp.vy * dp.vy * ry2 +
         dp.vxx * dp.vxx * rx2 * rx2 / 4 + dp.vyy * dp.vyy * ry2 * ry2 / 4 +
         dp.vxy * dp.vxy * rxy)

/-- Modelled from the spec: per-iteration quantities of the ICGN2D2 loop
produced by the collaborators absent from the given sources (subset fill,
interpolation, Eigen inverse, warp composition); kept abstract. -/
structure Iter2D2 where
  dp : ℕ → Deformation2D2
  p : ℕ → Deformation2D2
  znssd : ℕ → ℚ

/-- The increment-norm sequence of `ICGN2D2::compute`. -/
def icgn2D2DpNorm (s : ICGN2D2) (fsqrt : ℚ → ℚ) (env : Iter2D2) (k : ℕ) : ℚ :=
  dpNormMax2D2 fsqrt s.subset_radius_x s.subset_radius_y (env.dp k)

/-- The iteration count recorded by `ICGN2D2::compute`. -/
def icgn2D2Iterations (s : ICGN2D2) (fsqrt : ℚ → ℚ) (env : Iter2D2) : ℕ :=
  icgnIterCount (icgn2D2DpNorm s fsqrt env) s.stop_condition s.conv_criterion

/-- The non-rejecting branch of `ICGN2D2::compute` (lines 371-524): stores
all twelve second-order components and the diagnostics. -/
def ICGN2D2.body (s : ICGN2D2) (fsqrt : ℚ → ℚ) (env : Iter2D2) (poi : POI2D) :
    POI2D :=
  let n := icgn2D2Iterations s fsqrt env
  let pc := env.p n
  { poi with
    deformation := { poi.deformation with
      u := F32.val pc.u, ux := F32.val pc.ux, uy := F32.val pc.uy,
      uxx := F32.val pc.uxx, uyy := F32.val pc.uyy, uxy := F32.val pc.uxy,
      v := F32.val pc.v, vx := F32.val pc.vx, vy := F32.val pc.vy,
      vxx := F32.val pc.vxx, vyy := F32.val pc.vyy, vxy := F32.val pc.vxy }
    result := { poi.result with
      u0 := poi.deformation.u.q
      v0 := poi.deformation.v.q
      zncc := (1/2 : ℚ) * (2 - env.znssd n)
      iteration := (n : ℚ)
      convergence := icgn2D2DpNorm s fsqrt env n } }

/-- `ICGN2D2::compute(POI2D*)`. -/
def ICGN2D2.compute (s : ICGN2D2) (ref_img : Image2D) (fsqrt : ℚ → ℚ)
    (env : Iter2D2) (tid : ℕ) (poi : POI2D) : POI2D × Option String :=
  match s.getInstance tid with
  | .error e => (poi, some e)
  | .ok _ =>
    if s.rejectCond ref_img poi then
      ({ poi with result := { poi.result with zncc := -1 } }, none)
    else
      (s.body fsqrt env poi, none)

/-! ### ICGN3D1 (oc_icgn.cpp, first-order 3D) -/

/-- Configuration state of an `ICGN3D1` estimator. -/
structure ICGN3D1 where
  subset_radius_x : ℕ
  subset_radius_y : ℕ
  subset_radius_z : ℕ
  conv_criterion : ℚ
  stop_condition : ℚ
  thread_number : ℕ
  instance_pool : List ℕ

/-- `ICGN3D1::ICGN3D1`. -/
def ICGN3D1.create (subset_radius_x subset_radius_y subset_radius_z : ℕ)
    (conv_criterion stop_condition : ℚ) (thread_number : ℕ) : ICGN3D1 :=
  { subset_radius_x := subset_radius_x
    subset_radius_y := subset_radius_y
    subset_radius_z := subset_radius_z
    conv_criterion := conv_criterion
    stop_condition := stop_condition
    thread_number := thread_number
    instance_pool := List.range thread_number }

/-- `ICGN3D1::getInstance`. -/
def ICGN3D1.getInstance (s : ICGN3D1) (tid : ℕ) : Except String ℕ :=
  if s.instance_pool.length ≤ tid then .error threadOverLimit
  else .ok (s.instance_pool.getD tid 0)

/-- The pre-POI validation test of `ICGN3D1::compute` (lines 633-635),
translated literally: the six volume bound checks only — this variant
performs no NaN test on the initial guess. -/
def ICGN3D1.rejectCond (s : ICGN3D1) (ref_img : Image3D) (poi : POI3D) : Bool :=
  decide (poi.x - (s.subset_radius_x : ℚ) < 0) ||
  decide (poi.y - (s.subset_radius_y : ℚ) < 0) ||
  decide (poi.z - (s.subset_radius_z : ℚ) < 0) ||
  decide (poi.x + (s.subset_radius_x : ℚ) > (ref_img.dim_x : ℚ) - 1) ||
  decide (poi.y + (s.subset_radius_y : ℚ) > (ref_img.dim_y : ℚ) - 1) ||
  decide (poi.z + (s.subset_radius_z : ℚ) > (ref_img.dim_z : ℚ) - 1)

/-- Parameter vector of the source's `Deformation3D1`. -/
structure Deformation3D1 where
  u : ℚ
  ux : ℚ
  uy : ℚ
  uz : ℚ
  v : ℚ
  vx : ℚ
  vy : ℚ
  vz : ℚ
  w : ℚ
  wx : ℚ
  wy : ℚ
  wz : ℚ
deriving DecidableEq

/-- The convergence norm of `ICGN3D1::compute` (line 765):
`sqrt(u² + v² + w²)` on the increment — the gradient components are omitted
in this variant. -/
def dpNormMax3D1 (fsqrt : ℚ → ℚ) (dp : Deformation3D1) : ℚ :=
  fsqrt (dp.u * dp.u + dp.v * dp.v + dp.w * dp.w)

/-- Modelled from the spec: per-iteration quantities of the ICGN3D1 loop
produced by the collaborators absent from the given sources; kept abstract. -/
structure Iter3D1 where
  dp : ℕ → Deformation3D1
  p : ℕ → Deformation3D1
  znssd : ℕ → ℚ

/-- The increment-norm sequence of `ICGN3D1::compute`. -/
def icgn3D1DpNorm (fsqrt : ℚ → ℚ) (env : Iter3D1) (k : ℕ) : ℚ :=
  dpNormMax3D1 fsqrt (env.dp k)

/-- The iteration count recorded by `ICGN3D1::compute`. -/
def icgn3D1Iterations (s : ICGN3D1) (fsqrt : ℚ → ℚ) (env : Iter3D1) : ℕ :=
  icgnIterCount (icgn3D1DpNorm fsqrt env) s.stop_condition s.conv_criterion

/-- The non-rejecting branch of `ICGN3D1::compute` (lines 639-790). -/
def ICGN3D1.body (s : ICGN3D1) (fsqrt : ℚ → ℚ) (env : Iter3D1) (poi : POI3D) :
    POI3D :=
  let n := icgn3D1Iterations s fsqrt env
  let pc := env.p n
  { poi with
    deformation := { poi.deformation with
      u := F32.val pc.u, ux := F32.val pc.ux, uy := F32.val pc.uy,
      uz := F32.val pc.uz,
      v := F32.val pc.v, vx := F32.val pc.vx, vy := F32.val pc.vy,
      vz := F32.val pc.vz,
      w := F32.val pc.w, wx := F32.val pc.wx, wy := F32.val pc.wy,
      wz := F32.val pc.wz }
    result := { poi.result with
      u0 := poi.deformation.u.q
      v0 := poi.deformation.v.q
      w0 := poi.deformation.w.q
      zncc := (1/2 : ℚ) * (2 - env.znssd n)
      iteration := (n : ℚ)
      convergence := icgn3D1DpNorm fsqrt env n } }

/-- `ICGN3D1::compute(POI3D*)`. -/
def ICGN3D1.compute (s : ICGN3D1) (ref_img : Image3D) (fsqrt : ℚ → ℚ)
    (env : Iter3D1) (tid : ℕ) (poi : POI3D) : POI3D × Option String :=
  match s.getInstance tid with
  | .error e => (poi, some e)
  | .ok _ =>
    if s.rejectCond ref_img poi then
      ({ poi with result := { poi.result with zncc := -1 } }, none)
    else
      (s.body fsqrt env poi, none)

/-! ### FFTCC2D (oc_fftcc.cpp) -/

/-- Configuration state of an `FFTCC2D` estimator. -/
structure FFTCC2D where
  subset_radius_x : ℕ
  subset_radius_y : ℕ
  thread_number : ℕ
  instance_pool : List ℕ

/-- `FFTCC2D::FFTCC2D`: stores the radii and pushes `thread_number` FFTW
scratch instances into the pool. -/
def FFTCC2D.create (subset_radius_x subset_radius_y thread_number : ℕ) :
    FFTCC2D :=
  { subset_radius_x := subset_radius_x
    subset_radius_y := subset_radius_y
    thread_number := thread_number
    instance_pool := List.range thread_number }

/-- `FFTCC2D::getInstance`: same throw-or-index pattern as the ICGN pools. -/
def FFTCC2D.getInstance (s : FFTCC2D) (tid : ℕ) : Except String ℕ :=
  if s.instance_pool.length ≤ tid then .error threadOverLimit
  else .ok (s.instance_pool.getD tid 0)

/-- Number of samples in an FFT-CC subset: `(2·rx)·(2·ry)`
(`subset_size = subset_width * subset_height`). -/
def fftccSize (s : FFTCC2D) : ℕ :=
  (2 * s.subset_radius_x) * (2 * s.subset_radius_y)

/-- The reference subset buffer filled by `FFTCC2D::compute` (lines 253-267):
entry `i = r·W + c` holds `ref_img.eg_mat((int)(y + r - ry), (int)(x + c - rx))`. -/
def fftccRefSub (rx ry : ℕ) (img : Image2D) (poi : POI2D) (i : ℕ) : ℚ :=
  img.eg_mat (truncQ (poi.y + ((i / (2 * rx) : ℕ) : ℚ) - (ry : ℚ)))
             (truncQ (poi.x + ((i % (2 * rx) : ℕ) : ℚ) - (rx : ℚ)))

/-- The target subset buffer: the same window shifted by the initial guess
`(u0, v0)` before the integer cast. -/
def fftccTarSub (rx ry : ℕ) (img : Image2D) (poi : POI2D) (u0 v0 : ℚ)
    (i : ℕ) : ℚ :=
  img.eg_mat (truncQ (poi.y + ((i / (2 * rx) : ℕ) : ℚ) - (ry : ℚ) + v0))
             (truncQ (poi.x + ((i % (2 * rx) : ℕ) : ℚ) - (rx : ℚ) + u0))

/-- The subset mean (`ref_mean /= subset_size`). -/
def fftccMean (f : ℕ → ℚ) (n : ℕ) : ℚ := sumTo f n / (n : ℚ)

/-- The subset buffer after in-place mean subtraction. -/
def fftccZeroMean (f : ℕ → ℚ) (n : ℕ) (i : ℕ) : ℚ := f i - fftccMean f n

/-- The squared norm accumulated over the mean-subtracted buffer
(`ref_norm += ref_subset[i] * ref_subset[i]`). -/
def fftccNorm (f : ℕ → ℚ) (n : ℕ) : ℚ :=
  sumTo (fun i => fftccZeroMean f n i * fftccZeroMean f n i) n

/-- The inverse-transformed cross-spectrum buffer (`zncc`) of
`FFTCC2D::compute`.  The two forward FFTW transforms, the conjugate
cross-spectrum loop of lines 282-287 and the inverse transform act on the
opaque FFTW plan state; the whole round trip is abstracted as the parameter
`transform`, applied to the two zero-meaned subsets. -/
def fftccZbuf (s : FFTCC2D) (ref tar : Image2D)
    (transform : (ℕ → ℚ) → (ℕ → ℚ) → ℕ → ℚ) (poi : POI2D) : ℕ → ℚ :=
  let rx := s.subset_radius_x
  let ry := s.subset_radius_y
  let u0 := poi.deformation.u.q
  let v0 := poi.deformation.v.q
  transform (fftccZeroMean (fftccRefSub rx ry ref poi) (fftccSize s))
            (fftccZeroMean (fftccTarSub rx ry tar poi u0 v0) (fftccSize s))

/-- The argmax scan of lines 292-301: running maximum initialised to `-2`
at index 0, updated on strict improvement, indices visited in ascending
order.  `fftccMaxLoop z n` is the state after examining `z 0 … z (n-1)`. -/
def fftccMaxLoop (z : ℕ → ℚ) : ℕ → ℚ × ℕ
  | 0 => (-2, 0)
  | n + 1 =>
    let acc := fftccMaxLoop z n
    if acc.1 < z n then (z n, n) else acc

/-- The peak-index wrap of lines 305-308: subtract the full size exactly
when the decoded displacement is strictly above the subset radius. -/
def fftccWrap (radius width d : ℕ) : ℤ :=
  if (radius : ℤ) < (d : ℤ) then (d : ℤ) - (width : ℤ) else (d : ℤ)

/-- `FFTCC2D::compute(POI2D*)` (lines 236-317): fill and zero-mean the two
subsets, cross-correlate through the FFT round trip, locate the integer
peak, wrap it, and store `u0 + du`, `v0 + dv` and the normalised peak as
ZNCC.  No boundary or NaN validation is performed. -/
def FFTCC2D.compute (s : FFTCC2D) (ref tar : Image2D)
    (transform : (ℕ → ℚ) → (ℕ → ℚ) → ℕ → ℚ) (fsqrt : ℚ → ℚ)
    (tid : ℕ) (poi : POI2D) : POI2D × Option String :=
  match s.getInstance tid with
  | .error e => (poi, some e)
  | .ok _ =>
    let rx := s.subset_radius_x
    let ry := s.subset_radius_y
    let u0 := poi.deformation.u.q
    let v0 := poi.deformation.v.q
    let refNorm := fftccNorm (fftccRefSub rx ry ref poi) (fftccSize s)
    let tarNorm := fftccNorm (fftccTarSub rx ry tar poi u0 v0) (fftccSize s)
    let best := fftccMaxLoop (fftccZbuf s ref tar transform poi) (fftccSize s)
    let lu := fftccWrap rx (2 * rx) (best.2 % (2 * rx))
    let lv := fftccWrap ry (2 * ry) (best.2 / (2 * rx))
    ({ poi with
       deformation := { poi.deformation with
         u := F32.val ((lu : ℚ) + u0), v := F32.val ((lv : ℚ) + v0) }
       result := { poi.result with
         u0 := u0
         v0 := v0
         zncc := best.1 / (fsqrt (refNorm * tarNorm) * (fftccSize s : ℚ)) } },
     none)

/-! ### Speckle-size diagnostic (`FFTCC2D::determineSpeckleSize`) -/

/-- The crossing position stored by the half-peak search when it fires at
the adjacent samples `x1, x2` (lines 399, 407, 416, 424):
`x2 − (x2 − x1)·(half_peak_ratio − f(x2))·(f(x1) − f(x2))` — note the
final factor is a multiplication in the source. -/
def speckleCrossing (f : ℤ → ℚ) (hpk : ℚ) (x1 x2 : ℤ) : ℚ :=
  (x2 : ℚ) - ((x2 : ℚ) - (x1 : ℚ)) * (hpk - f x2) * (f x1 - f x2)

/-- One half-peak search loop of `determineSpeckleSize`, generic over the
direction: at step `i` it examines `x1 = x0 + step·i` and `x2 = x1 + step`,
stores the crossing and breaks at the first drop of `f` through the
threshold from strictly above to at-or-below, and leaves the result at its
initialisation `0` when the loop runs out. -/
def speckleScanGo (f : ℤ → ℚ) (hpk : ℚ) (x0 step : ℤ) : ℕ → ℕ → ℚ
  | 0, _ => 0
  | fuel + 1, i =>
    let x1 := x0 + step * (i : ℤ)
    let x2 := x1 + step
    if hpk < f x1 ∧ f x2 ≤ hpk then speckleCrossing f hpk x1 x2
    else speckleScanGo f hpk x0 step fuel (i + 1)

/-- A half-peak search loop run for `count` steps starting at `i = 0`. -/
def speckleScan (f : ℤ → ℚ) (hpk : ℚ) (x0 step : ℤ) (count : ℕ) : ℚ :=
  speckleScanGo f hpk x0 step count 0

/-- The pair of row (or column) indices the search loop reads at step `i`:
`x1 = x0 + step·i` and `x2 = x1 + step` (lines 396-398, 404-406, 413-415,
421-423). -/
def speckleScanAccess (x0 step : ℤ) (i : ℕ) : ℤ × ℤ :=
  (x0 + step * (i : ℤ), x0 + step * (i : ℤ) + step)

/-- `FFTCC2D::determineSpeckleSize` after the autocorrelation surface
`zncc_matrix` has been assembled (the FFT part is abstracted into the
function argument): four half-peak searches from `x0 = rx − 1`,
`y0 = ry − 1` with bounds `i < x0` and `i < y0`, returning
`(rx1 − rx2, ry1 − ry2)`. -/
def determineSpeckleSize2D (zncc_matrix : ℤ → ℤ → ℚ) (rx ry : ℕ)
    (hpk : ℚ) : ℚ × ℚ :=
  let x0 : ℤ := (rx : ℤ) - 1
  let y0 : ℤ := (ry : ℤ) - 1
  let rowf : ℤ → ℚ := fun x => zncc_matrix y0 x
  let colf : ℤ → ℚ := fun y => zncc_matrix y x0
  let rx1 := speckleScan rowf hpk x0 1 x0.toNat
  let rx2 := speckleScan rowf hpk x0 (-1) x0.toNat
  let ry1 := speckleScan colf hpk y0 1 y0.toNat
  let ry2 := speckleScan colf hpk y0 (-1) y0.toNat
  (rx1 - rx2, ry1 - ry2)

/-! ### Definitions written from the specification's words
(for comparison against the source-derived definitions above) -/

/-- Spec: the `(2r+1)` subset centred at `(x, y)` extends outside a `w × h`
image — some subset pixel falls outside columns `0..w-1` / rows `0..h-1`. -/
def subsetOutside2D (w h : ℤ) (rx ry : ℕ) (x y : ℚ) : Prop :=
  ¬ (0 ≤ x - (rx : ℚ) ∧ x + (rx : ℚ) ≤ (w : ℚ) - 1 ∧
     0 ≤ y - (ry : ℚ) ∧ y + (ry : ℚ) ≤ (h : ℚ) - 1)

/-- Spec: the `(2r+1)` subset centred at `(x, y, z)` extends outside a
`dx × dy × dz` volume. -/
def subsetOutside3D (dx dy dz : ℤ) (rx ry rz : ℕ) (x y z : ℚ) : Prop :=
  ¬ (0 ≤ x - (rx : ℚ) ∧ x + (rx : ℚ) ≤ (dx : ℚ) - 1 ∧
     0 ≤ y - (ry : ℚ) ∧ y + (ry : ℚ) ≤ (dy : ℚ) - 1 ∧
     0 ≤ z - (rz : ℚ) ∧ z + (rz : ℚ) ≤ (dz : ℚ) - 1)

/-- Claim C1's NaN condition for a first-order 2D initial guess: some
component of the six-parameter initial guess is NaN. -/
def icgnAnyNaN2D1 (d : DeformationVector2D) : Prop :=
  d.u.isnan = true ∨ d.ux.isnan = true ∨ d.uy.isnan = true ∨
  d.v.isnan = true ∨ d.vx.isnan = true ∨ d.vy.isnan = true

/-- Spec: linear interpolation of the half-peak crossing between the
unit-spaced samples at `x1` and `x2`:
`x2 − (half_peak_ratio − f(x2)) / (f(x1) − f(x2))`. -/
def speckleLinearCrossing (f : ℤ → ℚ) (hpk : ℚ) (x1 x2 : ℤ) : ℚ :=
  (x2 : ℚ) - (hpk - f x2) / (f x1 - f x2)

/-! ### Concrete fixtures used by witnesses and counterexamples -/

/-- An all-zero 2D deformation vector. -/
def zeroDef2D : DeformationVector2D :=
  ⟨F32.val 0, F32.val 0, F32.val 0, F32.val 0, F32.val 0, F32.val 0,
   F32.val 0, F32.val 0, F32.val 0, F32.val 0, F32.val 0, F32.val 0⟩

/-- A 2D deformation vector whose `ux` gradient component is NaN while the
displacements `u`, `v` are finite. -/
def nanuxDef2D : DeformationVector2D := { zeroDef2D with ux := F32.nan }

/-- An all-zero result record. -/
def zeroRes2D : Result2D := ⟨0, 0, 0, 0, 0⟩

/-- A 256 × 256 all-zero test image. -/
def imgC : Image2D := ⟨256, 256, fun _ _ => 0⟩

/-- A POI at (50, 50) with zero initial guess. -/
def poiMid : POI2D := ⟨50, 50, zeroDef2D, zeroRes2D⟩

/-- A POI 5 pixels from the image edge (rejected for subset radius 16). -/
def poiEdge : POI2D := ⟨5, 5, zeroDef2D, zeroRes2D⟩

/-- A POI far from the boundary whose initial guess has `ux = NaN`. -/
def poiNaNux : POI2D := ⟨50, 50, nanuxDef2D, zeroRes2D⟩

/-- A concrete iteration environment: unit increment (so the loop never
converges), zero current parameters, zero ZNSSD. -/
def envC : Iter2D1 :=
  ⟨fun _ => ⟨1, 0, 0, 0, 0, 0⟩, fun _ => ⟨0, 0, 0, 0, 0, 0⟩, fun _ => 0⟩

/-- The identity used as a stand-in square root on concrete inputs. -/
def idQ : ℚ → ℚ := fun q => q

/-- A concrete FFT round-trip whose output buffer peaks (value 5) at
linear index 1 regardless of the inputs. -/
def peakTransform : (ℕ → ℚ) → (ℕ → ℚ) → ℕ → ℚ :=
  fun _ _ i => if i = 1 then 5 else 0

/-! ### Helper lemmas -/

theorem fftccMaxLoop_ge (z : ℕ → ℚ) :
    ∀ n i, i < n → z i ≤ (fftccMaxLoop z n).1 := by
  intro n
  induction n with
  | zero => intro i h; omega
  | succ n ih =>
    intro i h
    simp only [fftccMaxLoop]
    split
    case isTrue hc =>
      rcases Nat.lt_succ_iff_lt_or_eq.mp h with h1 | h1
      · exact le_trans (ih i h1) (le_of_lt hc)
      · subst h1; exact le_refl _
    case isFalse hc =>
      rcases Nat.lt_succ_iff_lt_or_eq.mp h with h1 | h1
      · exact ih i h1
      · subst h1; exact le_of_not_lt hc

theorem fftccMaxLoop_mem (z : ℕ → ℚ) :
    ∀ n, (fftccMaxLoop z n).1 = -2 ∨
      ∃ i, i < n ∧ z i = (fftccMaxLoop z n).1 := by
  intro n
  induction n with
  | zero => left; rfl
  | succ n ih =>
    simp only [fftccMaxLoop]
    split
    case isTrue hc => right; exact ⟨n, Nat.lt_succ_self n, rfl⟩
    case isFalse hc =>
      rcases ih with h | ⟨i, hi, he⟩
      · left; exact h
      · right; exact ⟨i, Nat.lt_succ_of_lt hi, he⟩

theorem fftccMaxLoop_idx (z : ℕ → ℚ) :
    ∀ n, (fftccMaxLoop z n).2 = 0 ∨ (fftccMaxLoop z n).2 < n := by
  intro n
  induction n with
  | zero => left; rfl
  | succ n ih =>
    simp only [fftccMaxLoop]
    split
    case isTrue hc => right; exact Nat.lt_succ_self n
    case isFalse hc =>
      rcases ih with h | h
      · left; exact h
      · right; exact Nat.lt_succ_of_lt h

theorem fftccWrap_range (r d : ℕ) (hd : d < 2 * r) :
    -(r : ℤ) < fftccWrap r (2 * r) d ∧ fftccWrap r (2 * r) d ≤ (r : ℤ) := by
  unfold fftccWrap
  split <;> omega

theorem icgnLoopGo_spec (dpN : ℕ → ℚ) (stop conv : ℚ) :
    ∀ fuel iter, ⌈stop⌉₊ ≤ iter + fuel →
      (iter + 1 ≤ icgnLoopGo dpN stop conv fuel iter)
      ∧ (icgnLoopGo dpN stop conv fuel iter ≤ max (iter + 1) ⌈stop⌉₊)
      ∧ (stop ≤ (icgnLoopGo dpN stop conv fuel iter : ℚ)
         ∨ dpN (icgnLoopGo dpN stop conv fuel iter) < conv)
      ∧ (∀ m, iter < m → m < icgnLoopGo dpN stop conv fuel iter →
          ((m : ℚ) < stop ∧ conv ≤ dpN m)) := by
  intro fuel
  induction fuel with
  | zero =>
    intro iter hle
    simp only [icgnLoopGo]
    refine ⟨le_refl _, le_max_left _ _, Or.inl ?_, by intro m h1 h2; omega⟩
    have h1 : stop ≤ (iter : ℚ) := Nat.ceil_le.mp (by omega)
    have h2 : (iter : ℚ) ≤ ((iter + 1 : ℕ) : ℚ) := by push_cast; linarith
    linarith
  | succ fuel ih =>
    intro iter hle
    simp only [icgnLoopGo]
    split
    case isTrue hc =>
      obtain ⟨ha, hb, hcx, hd⟩ := ih (iter + 1) (by omega)
      have hlt : iter + 1 < ⌈stop⌉₊ := Nat.lt_ceil.mpr hc.1
      refine ⟨by omega, ?_, hcx, ?_⟩
      · rw [Nat.max_eq_right (by omega)] at hb
        exact le_trans hb (le_max_right _ _)
      · intro m hm1 hm2
        rcases Nat.lt_or_ge m (iter + 2) with hm | hm
        · have : m = iter + 1 := by omega
          subst this
          exact hc
        · exact hd m (by omega) hm2
    case isFalse hc =>
      refine ⟨le_refl _, le_max_left _ _, ?_, by intro m h1 h2; omega⟩
      by_cases hs : ((iter + 1 : ℕ) : ℚ) < stop
      · right
        rcases not_and_or.mp hc with h | h
        · exact absurd hs h
        · exact not_le.mp h
      · left
        exact not_lt.mp hs

/-! ### Claim theorems -/

/-- Claim C1 (amended): each ICGN compute operation rejects the POI exactly
when the (2r+1) subset centred at the POI extends outside the reference
image or — for the two 2D variants only — the `u` or `v` displacement
component of the initial guess is NaN; the gradient components are never
tested, and the 3D variant performs no NaN test at all. -/
theorem icgn_reject_characterization (s1 : ICGN2D1) (s2 : ICGN2D2)
    (s3 : ICGN3D1) (img : Image2D) (vol : Image3D) (poi : POI2D)
    (poi3 : POI3D) :
    (s1.rejectCond img poi = true ↔
      (subsetOutside2D img.width img.height s1.subset_radius_x
         s1.subset_radius_y poi.x poi.y
       ∨ poi.deformation.u.isnan = true ∨ poi.deformation.v.isnan = true))
  ∧ (s2.rejectCond img poi = true ↔
      (subsetOutside2D img.width img.height s2.subset_radius_x
         s2.subset_radius_y poi.x poi.y
       ∨ poi.deformation.u.isnan = true ∨ poi.deformation.v.isnan = true))
  ∧ (s3.rejectCond vol poi3 = true ↔
      subsetOutside3D vol.dim_x vol.dim_y vol.dim_z s3.subset_radius_x
        s3.subset_radius_y s3.subset_radius_z poi3.x poi3.y poi3.z) := by
  refine ⟨?_, ?_, ?_⟩ <;>
  · simp only [ICGN2D1.rejectCond, ICGN2D2.rejectCond, ICGN3D1.rejectCond,
      subsetOutside2D, subsetOutside3D, Bool.or_eq_true, decide_eq_true_eq,
      not_and_or, not_le, gt_iff_lt]
    tauto

/-- Claim C1, counterexample to the claim as stated: a POI far inside the
image whose initial guess has a NaN gradient component (`ux`) is not
rejected by `ICGN2D1::compute`, although the claim's condition ("any
component of the initial-guess deformation is NaN") holds. -/
theorem icgn_reject_nan_component_cex :
    ¬ ((ICGN2D1.create 16 16 (1/1000) 10 1).rejectCond imgC poiNaNux = true ↔
       (subsetOutside2D 256 256 16 16 50 50
        ∨ icgnAnyNaN2D1 poiNaNux.deformation)) := by
  intro hiff
  have hnan : icgnAnyNaN2D1 poiNaNux.deformation := by
    unfold icgnAnyNaN2D1 poiNaNux nanuxDef2D
    right; left; rfl
  have hr : (ICGN2D1.create 16 16 (1/1000) 10 1).rejectCond imgC poiNaNux
      = false := by
    simp only [ICGN2D1.rejectCond, ICGN2D1.create, imgC, poiNaNux, nanuxDef2D,
      zeroDef2D, F32.isnan, Bool.or_eq_false_iff, decide_eq_false_iff_not]
    norm_num
  rw [hr] at hiff
  simpa using hiff.mpr (Or.inr hnan)

/-- Claim C3: when `ICGN2D1::compute` rejects a POI, the only field it
modifies is `result.zncc`, set to −1; coordinates, the full deformation
vector and every other result field are returned exactly as they were. -/
theorem icgn2d1_reject_frame (s : ICGN2D1) (img : Image2D) (fsqrt : ℚ → ℚ)
    (env : Iter2D1) (tid : ℕ) (poi : POI2D)
    (h1 : tid < s.instance_pool.length)
    (h2 : s.rejectCond img poi = true) :
    s.compute img fsqrt env tid poi
      = ({ poi with result := { poi.result with zncc := -1 } }, none) := by
  have hok : s.getInstance tid = .ok (s.instance_pool.getD tid 0) := by
    unfold ICGN2D1.getInstance
    rw [if_neg (by omega)]
  simp only [ICGN2D1.compute, hok, h2, if_true]

/-- Claim C3, witness: the spec's own scenario — a POI 5 pixels from the
image edge with subset radius 16 is rejected with `zncc = -1` and no other
field changed. -/
theorem icgn2d1_reject_frame_witness :
    (ICGN2D1.create 16 16 (1/1000) 10 1).compute imgC idQ envC 0 poiEdge
      = ({ poiEdge with result := { poiEdge.result with zncc := -1 } },
         none) :=
  icgn2d1_reject_frame _ _ _ _ _ _ (by decide) (by
    simp only [ICGN2D1.rejectCond, ICGN2D1.create, imgC, poiEdge, zeroDef2D,
      F32.isnan, Bool.or_eq_true, decide_eq_true_eq]
    norm_num)

/-- Claim C4: the ICGN convergence norms are computed with exactly the
spec's weights — first-order 2D: radius-squared weights on the gradient
components; second-order 2D: additionally `rx⁴/4`, `ry⁴/4` and `rx²·ry²`
weights on the second-order components; first-order 3D:
`sqrt(du² + dv² + dw²)` with all gradient components omitted. -/
theorem icgn_conv_norm_weights (fsqrt : ℚ → ℚ) (rx ry : ℕ)
    (a : Deformation2D1) (b : Deformation2D2) (c : Deformation3D1) :
    dpNormMax2D1 fsqrt rx ry a
      = fsqrt (a.u ^ 2 + a.v ^ 2 + (a.ux ^ 2 + a.vx ^ 2) * (rx : ℚ) ^ 2
          + (a.uy ^ 2 + a.vy ^ 2) * (ry : ℚ) ^ 2)
  ∧ dpNormMax2D2 fsqrt rx ry b
      = fsqrt (b.u ^ 2 + b.v ^ 2 + (b.ux ^ 2 + b.vx ^ 2) * (rx : ℚ) ^ 2
          + (b.uy ^ 2 + b.vy ^ 2) * (ry : ℚ) ^ 2
          + (b.uxx ^ 2 + b.vxx ^ 2) * (rx : ℚ) ^ 4 / 4
          + (b.uyy ^ 2 + b.vyy ^ 2) * (ry : ℚ) ^ 4 / 4
          + (b.uxy ^ 2 + b.vxy ^ 2) * (rx : ℚ) ^ 2 * (ry : ℚ) ^ 2)
  ∧ dpNormMax3D1 fsqrt c = fsqrt (c.u ^ 2 + c.v ^ 2 + c.w ^ 2) := by
  refine ⟨?_, ?_, ?_⟩
  · simp only [dpNormMax2D1]
    congr 1
    ring
  · simp only [dpNormMax2D2]
    congr 1
    ring
  · simp only [dpNormMax3D1]
    congr 1
    ring

/-- Claim C5: for a validated POI and `stop_condition ≥ 1`, the IC-GN loop
body runs at least once, the recorded iteration count `n` satisfies
`1 ≤ n ≤ ⌈stop_condition⌉`, the loop has exited
(`n ≥ stop_condition` or `dp_norm n < conv_criterion`), and every earlier
iteration satisfied the continuation condition. -/
theorem icgn_loop_exit_characterization (s : ICGN2D1) (fsqrt : ℚ → ℚ)
    (env : Iter2D1) (poi : POI2D) (h : 1 ≤ s.stop_condition) :
    (ICGN2D1.body s fsqrt env poi).result.iteration
      = (icgn2D1Iterations s fsqrt env : ℚ)
  ∧ 1 ≤ icgn2D1Iterations s fsqrt env
  ∧ icgn2D1Iterations s fsqrt env ≤ ⌈s.stop_condition⌉₊
  ∧ (s.stop_condition ≤ (icgn2D1Iterations s fsqrt env : ℚ)
     ∨ icgn2D1DpNorm s fsqrt env (icgn2D1Iterations s fsqrt env)
         < s.conv_criterion)
  ∧ (∀ m, 1 ≤ m → m < icgn2D1Iterations s fsqrt env →
      ((m : ℚ) < s.stop_condition
       ∧ s.conv_criterion ≤ icgn2D1DpNorm s fsqrt env m)) := by
  obtain ⟨ha, hb, hc, hd⟩ := icgnLoopGo_spec (icgn2D1DpNorm s fsqrt env)
    s.stop_condition s.conv_criterion ⌈s.stop_condition⌉₊ 0 (by omega)
  have hceil : 1 ≤ ⌈s.stop_condition⌉₊ :=
    Nat.one_le_ceil_iff.mpr (by linarith)
  have hiter : icgn2D1Iterations s fsqrt env
      = icgnLoopGo (icgn2D1DpNorm s fsqrt env) s.stop_condition
          s.conv_criterion ⌈s.stop_condition⌉₊ 0 := rfl
  rw [hiter]
  refine ⟨rfl, ha, ?_, hc, ?_⟩
  · rw [Nat.max_eq_right hceil] at hb
    exact hb
  · intro m h1 h2
    exact hd m (by omega) h2

/-- Claim C5, witness: with a never-converging unit increment and
`stop_condition = 10` the loop runs at least one iteration. -/
theorem icgn_loop_exit_witness :
    1 ≤ icgn2D1Iterations (ICGN2D1.create 16 16 (1/1000) 10 1) idQ envC :=
  (icgn_loop_exit_characterization (ICGN2D1.create 16 16 (1/1000) 10 1)
    idQ envC poiMid (by decide)).2.1

/-- Claim C9: an estimator constructed with `thread_number = N` holds
exactly `N` scratch instances; `getInstance tid` (ICGN and FFT-CC alike)
raises exactly when `tid ≥ N` and otherwise returns the `tid`-th instance;
and when it raises inside `compute`, the raise precedes every write, so the
POI comes back unmodified. -/
theorem getinstance_pool_bound (rx ry : ℕ) (conv stop : ℚ) (N tid : ℕ)
    (img ref tar : Image2D) (fsqrt fsqrt2 : ℚ → ℚ) (env : Iter2D1)
    (transform : (ℕ → ℚ) → (ℕ → ℚ) → ℕ → ℚ) (poi : POI2D) :
    ((ICGN2D1.create rx ry conv stop N).instance_pool.length = N)
  ∧ ((FFTCC2D.create rx ry N).instance_pool.length = N)
  ∧ ((ICGN2D1.create rx ry conv stop N).getInstance tid
      = if N ≤ tid then .error threadOverLimit else .ok tid)
  ∧ ((FFTCC2D.create rx ry N).getInstance tid
      = if N ≤ tid then .error threadOverLimit else .ok tid)
  ∧ (N ≤ tid →
      (ICGN2D1.create rx ry conv stop N).compute img fsqrt env tid poi
          = (poi, some threadOverLimit)
      ∧ (FFTCC2D.create rx ry N).compute ref tar transform fsqrt2 tid poi
          = (poi, some threadOverLimit)) := by
  have hlen1 : (ICGN2D1.create rx ry conv stop N).instance_pool.length = N := by
    simp [ICGN2D1.create]
  have hlen2 : (FFTCC2D.create rx ry N).instance_pool.length = N := by
    simp [FFTCC2D.create]
  have hgi1 : (ICGN2D1.create rx ry conv stop N).getInstance tid
      = if N ≤ tid then .error threadOverLimit else .ok tid := by
    unfold ICGN2D1.getInstance
    rw [hlen1]
    by_cases h : N ≤ tid
    · rw [if_pos h, if_pos h]
    · rw [if_neg h, if_neg h]
      simp [ICGN2D1.create, List.getD,
        List.getElem?_range (by omega : tid < N)]
  have hgi2 : (FFTCC2D.create rx ry N).getInstance tid
      = if N ≤ tid then .error threadOverLimit else .ok tid := by
    unfold FFTCC2D.getInstance
    rw [hlen2]
    by_cases h : N ≤ tid
    · rw [if_pos h, if_pos h]
    · rw [if_neg h, if_neg h]
      simp [FFTCC2D.create, List.getD,
        List.getElem?_range (by omega : tid < N)]
  refine ⟨hlen1, hlen2, hgi1, hgi2, fun h => ⟨?_, ?_⟩⟩
  · simp only [ICGN2D1.compute, hgi1, if_pos h]
  · simp only [FFTCC2D.compute, hgi2, if_pos h]

/-- Claim C9, witness: thread index 3 against a pool of size 1 fails the
ICGN compute call and returns the POI unmodified. -/
theorem getinstance_pool_witness :
    (ICGN2D1.create 16 16 (1/1000) 10 1).compute imgC idQ envC 3 poiMid
      = (poiMid, some threadOverLimit) :=
  ((getinstance_pool_bound 16 16 (1/1000) 10 1 3 imgC imgC imgC idQ idQ envC
      peakTransform poiMid).2.2.2.2 (by decide)).1

/-- Claim C10: `FFTCC2D::compute` writes only `deformation.u`,
`deformation.v`, `result.u0`, `result.v0` and `result.zncc`; the gradient
components, `result.iteration`, `result.convergence` and the POI
coordinates are unchanged, unconditionally (there is no boundary or NaN
validation; an out-of-pool thread index leaves the POI entirely
unchanged). -/
theorem fftcc_frame (s : FFTCC2D) (ref tar : Image2D)
    (transform : (ℕ → ℚ) → (ℕ → ℚ) → ℕ → ℚ) (fsqrt : ℚ → ℚ) (tid : ℕ)
    (poi : POI2D) :
    ((s.compute ref tar transform fsqrt tid poi).1.x = poi.x)
  ∧ ((s.compute ref tar transform fsqrt tid poi).1.y = poi.y)
  ∧ ((s.compute ref tar transform fsqrt tid poi).1.deformation.ux
      = poi.deformation.ux)
  ∧ ((s.compute ref tar transform fsqrt tid poi).1.deformation.uy
      = poi.deformation.uy)
  ∧ ((s.compute ref tar transform fsqrt tid poi).1.deformation.vx
      = poi.deformation.vx)
  ∧ ((s.compute ref tar transform fsqrt tid poi).1.deformation.vy
      = poi.deformation.vy)
  ∧ ((s.compute ref tar transform fsqrt tid poi).1.deformation.uxx
      = poi.deformation.uxx)
  ∧ ((s.compute ref tar transform fsqrt tid poi).1.deformation.uxy
      = poi.deformation.uxy)
  ∧ ((s.compute ref tar transform fsqrt tid poi).1.deformation.uyy
      = poi.deformation.uyy)
  ∧ ((s.compute ref tar transform fsqrt tid poi).1.deformation.vxx
      = poi.deformation.vxx)
  ∧ ((s.compute ref tar transform fsqrt tid poi).1.deformation.vxy
      = poi.deformation.vxy)
  ∧ ((s.compute ref tar transform fsqrt tid poi).1.deformation.vyy
      = poi.deformation.vyy)
  ∧ ((s.compute ref tar transform fsqrt tid poi).1.result.iteration
      = poi.result.iteration)
  ∧ ((s.compute ref tar transform fsqrt tid poi).1.result.convergence
      = poi.result.convergence) := by
  unfold FFTCC2D.compute FFTCC2D.getInstance
  by_cases hc : s.instance_pool.length ≤ tid
  · rw [if_pos hc]
    exact ⟨rfl, rfl, rfl, rfl, rfl, rfl, rfl, rfl, rfl, rfl, rfl, rfl,
           rfl, rfl⟩
  · rw [if_neg hc]
    exact ⟨rfl, rfl, rfl, rfl, rfl, rfl, rfl, rfl, rfl, rfl, rfl, rfl,
           rfl, rfl⟩

/-- Claim C2 (amended): the peak index is decoded as
`du = k* mod (2rx)`, `dv = k* div (2rx)` and wrapped by subtracting the full
size exactly when strictly above the half-size, so the decoded pair
satisfies `-rx < du ≤ rx` and `-ry < dv ≤ ry` (the boundary `+rx`/`+ry` is
attainable; `-rx`/`-ry` is not). -/
theorem fftcc_decode_range (s : FFTCC2D) (ref tar : Image2D)
    (transform : (ℕ → ℚ) → (ℕ → ℚ) → ℕ → ℚ) (fsqrt : ℚ → ℚ) (tid : ℕ)
    (poi : POI2D) (h1 : tid < s.instance_pool.length)
    (hx : 1 ≤ s.subset_radius_x) (hy : 1 ≤ s.subset_radius_y) :
    ((s.compute ref tar transform fsqrt tid poi).1.deformation.u
      = F32.val ((fftccWrap s.subset_radius_x (2 * s.subset_radius_x)
          ((fftccMaxLoop (fftccZbuf s ref tar transform poi) (fftccSize s)).2
            % (2 * s.subset_radius_x)) : ℚ) + poi.deformation.u.q))
  ∧ ((s.compute ref tar transform fsqrt tid poi).1.deformation.v
      = F32.val ((fftccWrap s.subset_radius_y (2 * s.subset_radius_y)
          ((fftccMaxLoop (fftccZbuf s ref tar transform poi) (fftccSize s)).2
            / (2 * s.subset_radius_x)) : ℚ) + poi.deformation.v.q))
  ∧ (-(s.subset_radius_x : ℤ) < fftccWrap s.subset_radius_x
        (2 * s.subset_radius_x)
        ((fftccMaxLoop (fftccZbuf s ref tar transform poi) (fftccSize s)).2
          % (2 * s.subset_radius_x))
     ∧ fftccWrap s.subset_radius_x (2 * s.subset_radius_x)
        ((fftccMaxLoop (fftccZbuf s ref tar transform poi) (fftccSize s)).2
          % (2 * s.subset_radius_x)) ≤ (s.subset_radius_x : ℤ))
  ∧ (-(s.subset_radius_y : ℤ) < fftccWrap s.subset_radius_y
        (2 * s.subset_radius_y)
        ((fftccMaxLoop (fftccZbuf s ref tar transform poi) (fftccSize s)).2
          / (2 * s.subset_radius_x))
     ∧ fftccWrap s.subset_radius_y (2 * s.subset_radius_y)
        ((fftccMaxLoop (fftccZbuf s ref tar transform poi) (fftccSize s)).2
          / (2 * s.subset_radius_x)) ≤ (s.subset_radius_y : ℤ)) := by
  have hok : s.getInstance tid = .ok (s.instance_pool.getD tid 0) := by
    unfold FFTCC2D.getInstance
    rw [if_neg (by omega)]
  have hmod : (fftccMaxLoop (fftccZbuf s ref tar transform poi)
      (fftccSize s)).2 % (2 * s.subset_radius_x) < 2 * s.subset_radius_x :=
    Nat.mod_lt _ (by omega)
  have hdiv : (fftccMaxLoop (fftccZbuf s ref tar transform poi)
      (fftccSize s)).2 / (2 * s.subset_radius_x) < 2 * s.subset_radius_y := by
    rcases fftccMaxLoop_idx (fftccZbuf s ref tar transform poi) (fftccSize s)
      with h | h
    · rw [h]
      rw [Nat.div_eq_of_lt (by omega)]
      omega
    · rw [Nat.div_lt_iff_lt_mul (by omega : 0 < 2 * s.subset_radius_x)]
      calc (fftccMaxLoop (fftccZbuf s ref tar transform poi)
              (fftccSize s)).2
          < fftccSize s := h
        _ ≤ 2 * s.subset_radius_y * (2 * s.subset_radius_x) :=
            le_of_eq (by unfold fftccSize; ring)
  refine ⟨?_, ?_, fftccWrap_range _ _ hmod, fftccWrap_range _ _ hdiv⟩
  · simp only [FFTCC2D.compute, hok]
  · simp only [FFTCC2D.compute, hok]

/-- Claim C2, witness: with unit radii and a valid thread index the decoded
horizontal displacement lies in `(-rx, rx]`. -/
theorem fftcc_decode_range_witness :
    -((1 : ℕ) : ℤ) < fftccWrap 1 (2 * 1)
        ((fftccMaxLoop (fftccZbuf (FFTCC2D.create 1 1 1) imgC imgC
            peakTransform poiMid) (fftccSize (FFTCC2D.create 1 1 1))).2
          % (2 * 1))
    ∧ fftccWrap 1 (2 * 1)
        ((fftccMaxLoop (fftccZbuf (FFTCC2D.create 1 1 1) imgC imgC
            peakTransform poiMid) (fftccSize (FFTCC2D.create 1 1 1))).2
          % (2 * 1)) ≤ ((1 : ℕ) : ℤ) :=
  (fftcc_decode_range (FFTCC2D.create 1 1 1) imgC imgC peakTransform idQ 0
    poiMid (by decide) (by decide) (by decide)).2.2.1

/-- Claim C2, counterexample to the claim as stated: with `rx = ry = 1` and
a peak at linear index 1 the decoded `du` equals `+rx = 1`, so the claimed
strict upper bound `du < rx` fails. -/
theorem fftcc_decode_range_cex :
    ((FFTCC2D.compute (FFTCC2D.create 1 1 1) imgC imgC peakTransform idQ 0
        poiMid).1.deformation.u = F32.val 1)
    ∧ ¬ (fftccWrap 1 (2 * 1)
          ((fftccMaxLoop (fftccZbuf (FFTCC2D.create 1 1 1) imgC imgC
              peakTransform poiMid) (fftccSize (FFTCC2D.create 1 1 1))).2
            % (2 * 1)) < ((1 : ℕ) : ℤ)) := by
  have hz : fftccZbuf (FFTCC2D.create 1 1 1) imgC imgC peakTransform poiMid
      = fun i => if i = 1 then 5 else 0 := rfl
  have hsz : fftccSize (FFTCC2D.create 1 1 1) = 4 := rfl
  have hidx : (fftccMaxLoop (fftccZbuf (FFTCC2D.create 1 1 1) imgC imgC
      peakTransform poiMid) (fftccSize (FFTCC2D.create 1 1 1))).2 = 1 := by
    rw [hz, hsz]
    norm_num [fftccMaxLoop]
  have hwrap : fftccWrap 1 (2 * 1) 1 = 1 := by
    unfold fftccWrap
    norm_num
  constructor
  · have hok : (FFTCC2D.create 1 1 1).getInstance 0
        = .ok ((FFTCC2D.create 1 1 1).instance_pool.getD 0 0) := by
      unfold FFTCC2D.getInstance
      rw [if_neg (by decide)]
    simp only [FFTCC2D.compute, hok, hidx]
    norm_num [FFTCC2D.create, fftccWrap, poiMid, zeroDef2D, F32.q]
  · rw [hidx, hwrap]
    decide

/-- Claim C6: `FFTCC2D::compute` reports `deformation.u = u0 + du`,
`deformation.v = v0 + dv`, records the initial guess in `result.u0/v0`, and
reports `result.zncc = peak / (sqrt(ref_norm · tar_norm) · subset_size)`
where `peak` is the maximum of the inverse-transformed cross-spectrum,
`ref_norm`/`tar_norm` are the sums of squares of the mean-subtracted
subsets, and `subset_size = (2rx)·(2ry)`.  (The hypothesis that some buffer
entry exceeds the scan's `-2` sentinel always holds for genuine correlation
data.) -/
theorem fftcc_output_formulas (s : FFTCC2D) (ref tar : Image2D)
    (transform : (ℕ → ℚ) → (ℕ → ℚ) → ℕ → ℚ) (fsqrt : ℚ → ℚ) (tid : ℕ)
    (poi : POI2D) (h1 : tid < s.instance_pool.length)
    (h2 : ∃ i, i < fftccSize s
          ∧ -2 < fftccZbuf s ref tar transform poi i) :
    ((s.compute ref tar transform fsqrt tid poi).1.deformation.u
      = F32.val ((fftccWrap s.subset_radius_x (2 * s.subset_radius_x)
          ((fftccMaxLoop (fftccZbuf s ref tar transform poi) (fftccSize s)).2
            % (2 * s.subset_radius_x)) : ℚ) + poi.deformation.u.q))
  ∧ ((s.compute ref tar transform fsqrt tid poi).1.deformation.v
      = F32.val ((fftccWrap s.subset_radius_y (2 * s.subset_radius_y)
          ((fftccMaxLoop (fftccZbuf s ref tar transform poi) (fftccSize s)).2
            / (2 * s.subset_radius_x)) : ℚ) + poi.deformation.v.q))
  ∧ ((s.compute ref tar transform fsqrt tid poi).1.result.u0
      = poi.deformation.u.q)
  ∧ ((s.compute ref tar transform fsqrt tid poi).1.result.v0
      = poi.deformation.v.q)
  ∧ ((s.compute ref tar transform fsqrt tid poi).1.result.zncc
      = (fftccMaxLoop (fftccZbuf s ref tar transform poi) (fftccSize s)).1
        / (fsqrt (fftccNorm (fftccRefSub s.subset_radius_x s.subset_radius_y
              ref poi) (fftccSize s)
            * fftccNorm (fftccTarSub s.subset_radius_x s.subset_radius_y tar
              poi poi.deformation.u.q poi.deformation.v.q) (fftccSize s))
          * (fftccSize s : ℚ)))
  ∧ (∀ i, i < fftccSize s → fftccZbuf s ref tar transform poi i
      ≤ (fftccMaxLoop (fftccZbuf s ref tar transform poi) (fftccSize s)).1)
  ∧ (∃ i, i < fftccSize s ∧ fftccZbuf s ref tar transform poi i
      = (fftccMaxLoop (fftccZbuf s ref tar transform poi) (fftccSize s)).1)
  ∧ fftccSize s = 2 * s.subset_radius_x * (2 * s.subset_radius_y) := by
  have hok : s.getInstance tid = .ok (s.instance_pool.getD tid 0) := by
    unfold FFTCC2D.getInstance
    rw [if_neg (by omega)]
  obtain ⟨i0, hi0, hgt⟩ := h2
  have hge := fftccMaxLoop_ge (fftccZbuf s ref tar transform poi)
    (fftccSize s) i0 hi0
  have hmem : ∃ i, i < fftccSize s ∧ fftccZbuf s ref tar transform poi i
      = (fftccMaxLoop (fftccZbuf s ref tar transform poi) (fftccSize s)).1 := by
    rcases fftccMaxLoop_mem (fftccZbuf s ref tar transform poi) (fftccSize s)
      with h | h
    · exfalso
      rw [h] at hge
      linarith
    · exact h
  refine ⟨?_, ?_, ?_, ?_, ?_,
    fftccMaxLoop_ge (fftccZbuf s ref tar transform poi) (fftccSize s),
    hmem, by unfold fftccSize; ring⟩ <;>
    simp only [FFTCC2D.compute, hok]

/-- Claim C6, witness: the subset-size identity at unit radii, via a call
whose buffer peak exceeds the sentinel. -/
theorem fftcc_output_formulas_witness :
    fftccSize (FFTCC2D.create 1 1 1) = 2 * 1 * (2 * 1) :=
  (fftcc_output_formulas (FFTCC2D.create 1 1 1) imgC imgC peakTransform idQ
    0 poiMid (by decide)
    ⟨1, by decide, by norm_num [fftccZbuf, peakTransform]⟩).2.2.2.2.2.2.2

/-- Claim C7: on concrete samples `f(x1) = 3/5`, `f(x2) = 7/20` around the
half-peak threshold `1/2`, the search stores
`x2 − (x2−x1)·(h−f(x2))·(f(x1)−f(x2)) = 157/80`, while linear
interpolation of the crossing gives `x2 − (h−f(x2))/(f(x1)−f(x2)) = 7/5`:
the source multiplies by the sample difference where interpolation
requires dividing by it. -/
theorem speckle_interp_code_bug :
    speckleScan (fun x => if x ≤ 1 then 3/5 else 7/20) (1/2) 1 1 1 = 157/80
  ∧ speckleLinearCrossing (fun x => if x ≤ 1 then 3/5 else 7/20) (1/2) 1 2
      = 7/5
  ∧ speckleScan (fun x => if x ≤ 1 then 3/5 else 7/20) (1/2) 1 1 1
      ≠ speckleLinearCrossing (fun x => if x ≤ 1 then 3/5 else 7/20) (1/2)
          1 2 := by
  refine ⟨?_, ?_, ?_⟩ <;>
    norm_num [speckleScan, speckleScanGo, speckleCrossing,
      speckleLinearCrossing]

/-- Claim C8 (amended): for every subset radius, the two y-axis half-peak
loops with bound `i < y0` (`y0 = ry − 1`) only read rows
`y0 ± i` and `y0 ± i ∓ 1`, all of which lie inside the matrix's valid row
range `[0, 2·ry − 1]` (the largest row touched is `2·ry − 2`); the bound
`i < y0` causes no out-of-bounds access. -/
theorem speckle_yloop_in_bounds (ry : ℕ) (i : ℕ)
    (h : (i : ℤ) < (ry : ℤ) - 1) :
    (0 ≤ (speckleScanAccess ((ry : ℤ) - 1) 1 i).1
     ∧ (speckleScanAccess ((ry : ℤ) - 1) 1 i).1 ≤ 2 * (ry : ℤ) - 1
     ∧ 0 ≤ (speckleScanAccess ((ry : ℤ) - 1) 1 i).2
     ∧ (speckleScanAccess ((ry : ℤ) - 1) 1 i).2 ≤ 2 * (ry : ℤ) - 1)
    ∧ (0 ≤ (speckleScanAccess ((ry : ℤ) - 1) (-1) i).1
     ∧ (speckleScanAccess ((ry : ℤ) - 1) (-1) i).1 ≤ 2 * (ry : ℤ) - 1
     ∧ 0 ≤ (speckleScanAccess ((ry : ℤ) - 1) (-1) i).2
     ∧ (speckleScanAccess ((ry : ℤ) - 1) (-1) i).2 ≤ 2 * (ry : ℤ) - 1) := by
  simp only [speckleScanAccess]
  omega

/-- Claim C8, witness: radius 16, loop step 3. -/
theorem speckle_yloop_in_bounds_witness :
    0 ≤ (speckleScanAccess (((16 : ℕ) : ℤ) - 1) 1 3).1 :=
  (speckle_yloop_in_bounds 16 3 (by decide)).1.1

/-- Claim C8, counterexample to the claim as stated: there is no subset
radius and no loop step within the `i < y0` bound at which either y-axis
search reads a row outside `[0, 2·ry − 1]`. -/
theorem speckle_yloop_oob_cex :
    ¬ ∃ (ry i : ℕ), (i : ℤ) < (ry : ℤ) - 1
      ∧ ((speckleScanAccess ((ry : ℤ) - 1) 1 i).1 < 0
         ∨ 2 * (ry : ℤ) - 1 < (speckleScanAccess ((ry : ℤ) - 1) 1 i).1
         ∨ (speckleScanAccess ((ry : ℤ) - 1) 1 i).2 < 0
         ∨ 2 * (ry : ℤ) - 1 < (speckleScanAccess ((ry : ℤ) - 1) 1 i).2
         ∨ (speckleScanAccess ((ry : ℤ) - 1) (-1) i).1 < 0
         ∨ 2 * (ry : ℤ) - 1 < (speckleScanAccess ((ry : ℤ) - 1) (-1) i).1
         ∨ (speckleScanAccess ((ry : ℤ) - 1) (-1) i).2 < 0
         ∨ 2 * (ry : ℤ) - 1 < (speckleScanAccess ((ry : ℤ) - 1) (-1) i).2) := by
  rintro ⟨ry, i, hlt, hbad⟩
  simp only [speckleScanAccess] at hbad
  omega
